import Mathlib

/-!
Verification of the `ai-email-agent` repository: a shallow embedding of the
Microsoft Graph HTTP client (`src/auth/graph_client.py`), the email scanner
(`src/email_client/email_scanner.py`), the email data model
(`src/email_client/models.py`) and the token cache persistence layer
(`src/auth/token_cache.py`), together with theorems settling the behavioural
claims about 401 retries, response handling, header merging, pagination,
scan accumulation invariants and persist idempotence.

JSON bodies decoded by `json.loads` are modelled by the inductive `Json`
(numbers as `Int`; no claim depends on float values).  Python `None` and JSON
`null` coincide after decoding and are both `Json.null`.
-/

/-- A decoded JSON value as produced by Python's `json.loads`. -/
inductive Json where
  | null
  | bool (b : Bool)
  | num (n : Int)
  | str (s : String)
  | arr (xs : List Json)
  | obj (kvs : List (String × Json))
deriving Repr

/-- A single-quote character, used by Python `repr` of strings. -/
def pySquote : String := String.singleton (Char.ofNat 39)

/-- Python truthiness (`bool(x)`) of a decoded JSON value. -/
def pyTruthy : Json → Bool
  | .null => false
  | .bool b => b
  | .num n => n != 0
  | .str s => s != ""
  | .arr xs => !xs.isEmpty
  | .obj kvs => !kvs.isEmpty

/-- `d[k]` presence lookup on a decoded JSON object: `none` when the key is
absent (Python would raise `KeyError`), `some v` when present (even if `v`
is `null`). -/
def pyFind (kvs : List (String × Json)) (k : String) : Option Json :=
  (kvs.find? (fun kv => kv.1 == k)).map (fun kv => kv.2)

/-- `d.get(k)`: the value when present, Python `None` (= `Json.null`) when
absent. -/
def pyGet (kvs : List (String × Json)) (k : String) : Json :=
  (pyFind kvs k).getD .null

/-- `d.get(k, default)`: the stored value when the key is present (even when
that value is `null`), the default otherwise. -/
def pyGetD (kvs : List (String × Json)) (k : String) (d : Json) : Json :=
  (pyFind kvs k).getD d

mutual
/-- Python `repr` of a decoded JSON value (strings quoted, containers
rendered recursively); used by `str` on containers. -/
def pyRepr : Json → String
  | .null => "None"
  | .bool true => "True"
  | .bool false => "False"
  | .num n => toString n
  | .str s => pySquote ++ s ++ pySquote
  | .arr xs => "[" ++ pyReprArr xs ++ "]"
  | .obj kvs => "\x7b" ++ pyReprObj kvs ++ "\x7d"

/-- Comma-separated `repr` of the elements of a decoded JSON array. -/
def pyReprArr : List Json → String
  | [] => ""
  | [x] => pyRepr x
  | x :: y :: xs => pyRepr x ++ ", " ++ pyReprArr (y :: xs)

/-- Comma-separated `repr` of the entries of a decoded JSON object. -/
def pyReprObj : List (String × Json) → String
  | [] => ""
  | [kv] => pySquote ++ kv.1 ++ pySquote ++ ": " ++ pyRepr kv.2
  | kv :: kv2 :: kvs => pySquote ++ kv.1 ++ pySquote ++ ": " ++ pyRepr kv.2 ++ ", " ++ pyReprObj (kv2 :: kvs)
end

/-- Python `str(x)` of a decoded JSON value: `str` is the identity on
strings, `None`/`True`/`False` for the singletons, decimal for numbers, and
`repr` for containers. -/
def pyStr : Json → String
  | .str s => s
  | v => pyRepr v

/-! ## HTTP layer (`src/auth/graph_client.py`) -/

/-- The body of an HTTP response as seen by `GraphApiClient._parse_json`:
empty (`not response.content`), text that is not valid JSON
(`json.JSONDecodeError` from `response.json()`), or a decoded JSON value. -/
inductive ResponseBody where
  | empty
  | invalid (raw : String)
  | json (j : Json)
deriving Repr

/-- An HTTP response: status code, reason phrase and body. -/
structure Response where
  status_code : Nat
  reason : String
  body : ResponseBody
deriving Repr

/-- A Python value returned by `GraphApiClient._parse_json`: `None` for an
empty body, the raw text for an undecodable body, or the decoded JSON. -/
inductive PyVal where
  | none
  | text (s : String)
  | json (j : Json)
deriving Repr

/-- `GraphApiClient._parse_json`: `None` when the body is empty, the decoded
JSON when it parses, the raw text otherwise. -/
def GraphApiClient.parse_json : ResponseBody → PyVal
  | .empty => .none
  | .invalid raw => .text raw
  | .json j => .json j

/-- `requests.Response.ok`: true unless `raise_for_status` would raise,
i.e. unless the status code lies in `[400, 600)`.  Note this makes every
3xx response a "success" for `_handle_response`. -/
def Response.ok (r : Response) : Bool :=
  !(decide (400 ≤ r.status_code) && decide (r.status_code < 600))

/-- `GraphApiError` (`src/auth/exceptions.py`): HTTP status code, message,
optional provider error code and optional details mapping. -/
structure GraphApiError where
  status_code : Nat
  message : String
  error : Option String
  details : Option (List (String × Json))
deriving Repr

/-- `GraphApiClient._handle_response`: return the parsed body on a
successful (`response.ok`) status, otherwise raise a `GraphApiError` whose
message/code/details come from the provider's `error` envelope when the
payload is a mapping containing one, defaulting to the HTTP reason phrase
(or `"Unexpected response"` when the reason is empty). -/
def GraphApiClient.handle_response (resp : Response) : Except GraphApiError PyVal :=
  if resp.ok then .ok (GraphApiClient.parse_json resp.body)
  else
    let message := if resp.reason == "" then "Unexpected response" else resp.reason
    match GraphApiClient.parse_json resp.body with
    | .json (.obj kvs) =>
      match pyFind kvs "error" with
      | some (.obj ekvs) =>
        let code := pyGet ekvs "code"
        let error := if pyTruthy code then some (pyStr code) else Option.none
        let message :=
          match pyFind ekvs "message" with
          | some v => pyStr v
          | Option.none => message
        let details := some (ekvs.filter (fun kv => kv.1 ≠ "code" ∧ kv.1 ≠ "message"))
        .error ⟨resp.status_code, message, error, details⟩
      | _ => .error ⟨resp.status_code, message, Option.none, Option.none⟩
    | _ => .error ⟨resp.status_code, message, Option.none, Option.none⟩

/-- `d[k] = v` on a Python dict modelled as an ordered association list:
replace in place when the key is present, append otherwise. -/
def pySetItem (d : List (String × String)) (k v : String) : List (String × String) :=
  if d.any (fun kv => kv.1 == k) then
    d.map (fun kv => if kv.1 == k then (k, v) else kv)
  else d ++ [(k, v)]

/-- `base.update(extra)` on Python dicts modelled as ordered association
lists: each entry of `extra`, in order, overwrites or appends. -/
def pyDictUpdate (base extra : List (String × String)) : List (String × String) :=
  extra.foldl (fun acc kv => pySetItem acc kv.1 kv.2) base

/-- Key lookup on a Python string dict modelled as an association list. -/
def pyFindStr (d : List (String × String)) (k : String) : Option String :=
  (d.find? (fun kv => kv.1 == k)).map (fun kv => kv.2)

/-- The value of the LAST entry of `d` carrying key `k`; for a faithful
model of a Python dict (unique keys) this agrees with `pyFindStr`. -/
def pyLastFindStr : List (String × String) → String → Option String
  | [], _ => Option.none
  | kv :: rest, k =>
    match pyLastFindStr rest k with
    | some v => some v
    | Option.none => if kv.1 == k then some kv.2 else Option.none

/-- `GraphApiClient._prepare_headers`: start from
`{Authorization: Bearer <token>, Accept: application/json}` and then
`merged.update(headers)` with the caller-supplied headers — so a caller
entry for one of those two keys overwrites the client's value. -/
def GraphApiClient.prepare_headers
    (headers : Option (List (String × String))) (token : String) :
    List (String × String) :=
  let merged := [("Authorization", "Bearer " ++ token), ("Accept", "application/json")]
  match headers with
  | some hs => pyDictUpdate merged hs
  | Option.none => merged

/-- Observable trace of one `GraphApiClient.request` call: the final
outcome, how many times the request was sent over the wire, and how many
`get_access_token(force_refresh=True)` calls were made. -/
structure RequestTrace where
  result : Except GraphApiError PyVal
  sends : Nat
  forced_refreshes : Nat
deriving Repr

/-- `GraphApiClient.request` (the 401 retry logic): send the request; if
the response status is exactly 401, acquire a token with
`force_refresh=True` and re-send the same request once; pass the final
response to `_handle_response`.  `transport n` is the server's response to
the `n`-th send of this logical request. -/
def GraphApiClient.request (transport : Nat → Response) : RequestTrace :=
  let response := transport 0
  if response.status_code == 401 then
    let response := transport 1
    ⟨GraphApiClient.handle_response response, 2, 1⟩
  else
    ⟨GraphApiClient.handle_response response, 1, 0⟩

/-! ## Email data model (`src/email_client/models.py`) -/

/-- A Python exception escaping `Email.from_graph_api`.  The method can
raise `KeyError` (missing `"id"`) or `TypeError` (`list(...)` over a
non-iterable `categories` value); its `datetime.fromisoformat` calls are
wrapped in `contextlib.suppress(ValueError, AttributeError)`, so a
`ValueError` never escapes, but the scanner's `except` clause still names
it. -/
inductive PyErr where
  | keyError (key : String)
  | valueError (msg : String)
  | typeError (msg : String)
deriving Repr

/-- Python's `str(e)` for the modelled exceptions, as interpolated into the
scanner's `f"Failed to parse email: {e}"` diagnostics. -/
def PyErr.message : PyErr → String
  | .keyError k => pySquote ++ k ++ pySquote
  | .valueError m => m
  | .typeError m => m

/-- The Python type name of a decoded JSON value, as it appears in
`TypeError` messages. -/
def pyTypeName : Json → String
  | .null => "NoneType"
  | .bool _ => "bool"
  | .num _ => "int"
  | .str _ => "str"
  | .arr _ => "list"
  | .obj _ => "dict"

/-- Python `list(x)`: succeeds on iterables (lists; strings iterate into
one-character strings; dicts iterate into their keys) and raises
`TypeError` otherwise — in particular on `None`. -/
def pyList : Json → Except PyErr (List Json)
  | .arr xs => .ok xs
  | .str s => .ok (s.toList.map (fun c => Json.str (String.singleton c)))
  | .obj kvs => .ok (kvs.map (fun kv => Json.str kv.1))
  | v => .error (.typeError (pySquote ++ pyTypeName v ++ pySquote ++ " object is not iterable"))

/-- `EmailAddress` (`models.py`): the `name` keeps whatever JSON value the
payload held (`email_data.get("name")`), the `address` is a string. -/
structure EmailAddress where
  name : Json
  address : String
deriving Repr

/-- `EmailBody` (`models.py`). -/
structure EmailBody where
  content : String
  content_type : String
deriving Repr

/-- `Email` (`models.py`).  Fields that Python types as `Any`-valued
optionals keep the raw JSON value (`Json.null` for Python `None`).  The
two datetime fields keep the normalised input string: the source's
`datetime.fromisoformat` validation is executed under
`contextlib.suppress`, so its failure only affects the stored value and is
never observable through any claim. -/
structure Email where
  id : String
  subject : Json
  sender : Option EmailAddress
  from_address : Option EmailAddress
  to_recipients : List EmailAddress
  cc_recipients : List EmailAddress
  bcc_recipients : List EmailAddress
  received_datetime : Option String
  sent_datetime : Option String
  has_attachments : Bool
  importance : String
  is_read : Bool
  body_preview : Json
  body : Option EmailBody
  categories : List Json
  folder_id : Json
  conversation_id : Json
  internet_message_id : Json
  web_link : Json
deriving Repr

/-- The sender/from parsing block of `Email.from_graph_api`: when the value
is a truthy dict whose `emailAddress` entry (default `{}`) is a dict, build
an `EmailAddress` with `name = email_data.get("name")` and
`address = str(email_data.get("address", ""))`. -/
def Email.parse_address (v : Json) : Option EmailAddress :=
  match v with
  | .obj kvs =>
    if pyTruthy (.obj kvs) then
      match pyGetD kvs "emailAddress" (.obj []) with
      | .obj ekvs => some ⟨pyGet ekvs "name", pyStr (pyGetD ekvs "address" (.str ""))⟩
      | _ => none
    else none
  | _ => none

/-- `parse_recipients` inside `Email.from_graph_api`: keep only dict
entries whose `emailAddress` entry is a dict with a truthy `address`. -/
def Email.parse_recipients (v : Json) : List EmailAddress :=
  match v with
  | .arr xs =>
    xs.filterMap (fun recipient =>
      match recipient with
      | .obj kvs =>
        match pyGetD kvs "emailAddress" (.obj []) with
        | .obj ekvs =>
          if pyTruthy (pyGet ekvs "address") then
            some ⟨pyGet ekvs "name", pyStr (pyGet ekvs "address")⟩
          else none
        | _ => none
      | _ => none)
  | _ => []

/-- The datetime parsing block of `Email.from_graph_api`: when the field is
truthy, normalise `"Z"` to `"+00:00"` and keep the string
(`fromisoformat`'s failures are suppressed in the source and only affect
the stored value). -/
def Email.parse_datetime (v : Json) : Option String :=
  if pyTruthy v then some ((pyStr v).replace "Z" "+00:00") else none

/-- `Email.from_graph_api`: build an `Email` from a decoded Graph message
dict.  Raises `KeyError` when `"id"` is absent (`data["id"]`), and
`TypeError` when `data.get("categories", [])` is not iterable — the only
two exceptions that can escape.  Python evaluates the `cls(...)` arguments
left to right, so a missing `"id"` raises before a bad `categories`. -/
def Email.from_graph_api (data : List (String × Json)) : Except PyErr Email := do
  let sender := Email.parse_address (pyGet data "sender")
  let from_address := Email.parse_address (pyGet data "from")
  let to_recipients := Email.parse_recipients (pyGetD data "toRecipients" (.arr []))
  let cc_recipients := Email.parse_recipients (pyGetD data "ccRecipients" (.arr []))
  let bcc_recipients := Email.parse_recipients (pyGetD data "bccRecipients" (.arr []))
  let body :=
    match pyGet data "body" with
    | .obj bkvs =>
      if pyTruthy (.obj bkvs) then
        some (EmailBody.mk (pyStr (pyGetD bkvs "content" (.str "")))
          ((pyStr (pyGetD bkvs "contentType" (.str "text"))).toLower))
      else none
    | _ => none
  let received_datetime := Email.parse_datetime (pyGet data "receivedDateTime")
  let sent_datetime := Email.parse_datetime (pyGet data "sentDateTime")
  let id ←
    match pyFind data "id" with
    | some v => pure (pyStr v)
    | none => throw (.keyError "id")
  let categories ← pyList (pyGetD data "categories" (.arr []))
  pure
    { id := id
      subject := pyGet data "subject"
      sender := sender
      from_address := from_address
      to_recipients := to_recipients
      cc_recipients := cc_recipients
      bcc_recipients := bcc_recipients
      received_datetime := received_datetime
      sent_datetime := sent_datetime
      has_attachments := pyTruthy (pyGetD data "hasAttachments" (.bool false))
      importance := (pyStr (pyGetD data "importance" (.str "normal"))).toLower
      is_read := pyTruthy (pyGetD data "isRead" (.bool false))
      body_preview := pyGet data "bodyPreview"
      body := body
      categories := categories
      folder_id := pyGet data "parentFolderId"
      conversation_id := pyGet data "conversationId"
      internet_message_id := pyGet data "internetMessageId"
      web_link := pyGet data "webLink" }

/-! ## Email scanner (`src/email_client/email_scanner.py`)

Two models of the remote server are used.  For the result-shape claims the
server is a finite list of request outcomes consumed in order: each loop
iteration of `_fetch_email_pages` performs exactly one
`GraphApiClient.request` call and so consumes one element, and an
exhausted list is read as the next request raising (the generator swallows
every exception from a page request the same way) — every terminating
execution of the loop is represented by some such list.  Termination
itself cannot be settled on that model (it builds finiteness in), so the
loop is additionally given as the fuel-indexed `fetchLoopFuel` over an
unbounded server oracle `Nat → ReqResult`, where divergence is observable
as `running` outcomes at every fuel.  The query-parameter bookkeeping
(`$top = min(..., remaining)` etc.) only shapes what a real server would
answer and is not consulted by either oracle. -/

/-- Outcome of one `GraphApiClient.request` call inside the pagination
loop: the returned Python value, or any raised exception (transport error
or `GraphApiError` after the session's own retries). -/
inductive ReqResult where
  | ok (v : PyVal)
  | err
deriving Repr

/-- Why the `while` loop of `_fetch_email_pages` stopped. -/
inductive PageExit where
  /-- `total_fetched >= max_emails` at the top of the loop. -/
  | boundReached
  /-- `not isinstance(result, Mapping)`. -/
  | malformedBody
  /-- `value` absent, not a list, or the empty list. -/
  | emptyValue
  /-- `if not next_link: break` after yielding a page. -/
  | noCursor
  /-- the page request raised (caught by the bare `except Exception`). -/
  | requestError
deriving Repr, DecidableEq

/-- A yielded page: the dict records of the `value` list, paired with the
raw `@odata.nextLink` value (`Json.null` for Python `None`). -/
abbrev FetchPage := List (List (String × Json)) × Json

/-- The pages yielded by a full run of `_fetch_email_pages`, plus the exit
reason. -/
structure FetchRun where
  pages : List FetchPage
  exit : PageExit

/-- Keep only the dict elements of a page's `value` list
(`[item for item in value if isinstance(item, dict)]`). -/
def dictRecords (xs : List Json) : List (List (String × Json)) :=
  xs.filterMap (fun j => match j with | .obj kvs => some kvs | _ => none)

/-- The `while total_fetched < max_emails` loop of
`EmailScanner._fetch_email_pages`, one recursive call per iteration,
consuming one server response per iteration. -/
def EmailScanner.fetchLoop
    (responses : List ReqResult) (total_fetched max_emails : Nat) : FetchRun :=
  if max_emails ≤ total_fetched then ⟨[], .boundReached⟩
  else
    match responses with
    | [] => ⟨[], .requestError⟩
    | .err :: _ => ⟨[], .requestError⟩
    | .ok v :: rest =>
      match v with
      | .json (.obj kvs) =>
        match pyGetD kvs "value" (.arr []) with
        | .arr (x :: xs) =>
          let email_batch := dictRecords (x :: xs)
          let total_fetched := total_fetched + email_batch.length
          let next_link := pyGet kvs "@odata.nextLink"
          if pyTruthy next_link then
            let run := EmailScanner.fetchLoop rest total_fetched max_emails
            ⟨(email_batch, next_link) :: run.pages, run.exit⟩
          else ⟨[(email_batch, next_link)], .noCursor⟩
        | _ => ⟨[], .emptyValue⟩
      | _ => ⟨[], .malformedBody⟩

/-- `EmailScanner._fetch_email_pages`: run the pagination loop from an
empty accumulator. -/
def EmailScanner.fetch_email_pages (responses : List ReqResult) (max_emails : Nat) : FetchRun :=
  EmailScanner.fetchLoop responses 0 max_emails

/-- Observation of the `while` loop after a bounded number of iterations:
either it has exited (with its yielded pages and exit reason), or it is
still running, holding the pages yielded so far and the current
`total_fetched`. -/
inductive LoopOutcome where
  | exited (pages : List FetchPage) (exit : PageExit)
  | running (pages : List FetchPage) (total_fetched : Nat)
deriving Repr

/-- Whether the loop has exited. -/
def LoopOutcome.isExited : LoopOutcome → Bool
  | .exited _ _ => true
  | .running _ _ => false

/-- The `while total_fetched < max_emails` loop of `_fetch_email_pages`
over an unbounded server oracle (`server j` is the response to the `j`-th
request of the run), observed after at most `fuel` iterations.  This is
the same loop body as `fetchLoop`, but with no finiteness built into the
server: a run that is `running` at every fuel is a diverging execution of
the source loop. -/
def EmailScanner.fetchLoopFuel (server : Nat → ReqResult) :
    Nat → Nat → Nat → Nat → LoopOutcome
  | _, total_fetched, _, 0 => .running [] total_fetched
  | j, total_fetched, max_emails, fuel + 1 =>
    if max_emails ≤ total_fetched then .exited [] .boundReached
    else
      match server j with
      | .err => .exited [] .requestError
      | .ok v =>
        match v with
        | .json (.obj kvs) =>
          match pyGetD kvs "value" (.arr []) with
          | .arr (x :: xs) =>
            let email_batch := dictRecords (x :: xs)
            let total_fetched := total_fetched + email_batch.length
            let next_link := pyGet kvs "@odata.nextLink"
            if pyTruthy next_link then
              match EmailScanner.fetchLoopFuel server (j + 1) total_fetched max_emails fuel with
              | .exited pages e => .exited ((email_batch, next_link) :: pages) e
              | .running pages t => .running ((email_batch, next_link) :: pages) t
            else .exited [(email_batch, next_link)] .noCursor
          | _ => .exited [] .emptyValue
        | _ => .exited [] .malformedBody

/-- A server that forever answers a nonempty `value` list containing no
dict items, together with a truthy cursor: each iteration of the source
loop fetches zero records (`email_batch == []`), leaves `total_fetched`
unchanged, sees a truthy `next_link`, and loops again. -/
def adversarialServer : Nat → ReqResult := fun _ =>
  .ok (.json (.obj [("value", .arr [.str "x"]), ("@odata.nextLink", .str "L")]))

/-- The mutable locals of the accumulation loop in
`EmailScanner.scan_folder` / `scan_with_filter`. -/
structure ScanAcc where
  emails : List Email
  errors : List String
  scanned_count : Nat
  skipped_count : Nat
  next_link : Json
deriving Repr

/-- The inner `for email_data in email_batch` loop: count every record,
append it on successful parse, on `KeyError`/`ValueError` count it as
skipped and record a diagnostic, and break out as soon as
`len(emails) >= limit`.  A `TypeError` is not caught and aborts the scan. -/
def EmailScanner.scanRecords (limit : Nat) (acc : ScanAcc) :
    List (List (String × Json)) → Except PyErr ScanAcc
  | [] => .ok acc
  | record :: rest =>
    let acc := { acc with scanned_count := acc.scanned_count + 1 }
    match Email.from_graph_api record with
    | .ok email =>
      let acc := { acc with emails := acc.emails ++ [email] }
      if limit ≤ acc.emails.length then .ok acc
      else EmailScanner.scanRecords limit acc rest
    | .error (.keyError k) =>
      let acc := { acc with
        skipped_count := acc.skipped_count + 1,
        errors := acc.errors ++ ["Failed to parse email: " ++ PyErr.message (.keyError k)] }
      if limit ≤ acc.emails.length then .ok acc
      else EmailScanner.scanRecords limit acc rest
    | .error (.valueError m) =>
      let acc := { acc with
        skipped_count := acc.skipped_count + 1,
        errors := acc.errors ++ ["Failed to parse email: " ++ PyErr.message (.valueError m)] }
      if limit ≤ acc.emails.length then .ok acc
      else EmailScanner.scanRecords limit acc rest
    | .error (.typeError m) => .error (.typeError m)

/-- The outer `for email_batch, batch_next_link in self._fetch_email_pages(...)`
loop: process the batch, then set `next_link = batch_next_link`, then break
when `len(emails) >= limit`. -/
def EmailScanner.scanPages (limit : Nat) (acc : ScanAcc) :
    List FetchPage → Except PyErr ScanAcc
  | [] => .ok acc
  | (batch, batch_next_link) :: rest =>
    match EmailScanner.scanRecords limit acc batch with
    | .error e => .error e
    | .ok acc =>
      let acc := { acc with next_link := batch_next_link }
      if limit ≤ acc.emails.length then .ok acc
      else EmailScanner.scanPages limit acc rest

/-- `ScanResult` (`models.py`).  `next_link` keeps the raw value the scan
stored (`Json.null` for Python `None`). -/
structure ScanResult where
  emails : List Email
  total_count : Nat
  scanned_count : Nat
  skipped_count : Nat
  folder_id : Option String := none
  folder_name : Option String := none
  has_more : Bool := false
  next_link : Json := .null
  errors : List String := []
deriving Repr

/-- Python `x is not None` for the stored `next_link`. -/
def Json.isNotNone : Json → Bool
  | .null => false
  | _ => true

/-- Assemble the `ScanResult` returned at the end of `scan_folder` /
`scan_with_filter`, including
`has_more = next_link is not None and len(emails) >= limit`. -/
def EmailScanner.mkScanResult (limit : Nat) (acc : ScanAcc)
    (folder_id folder_name : Option String) : ScanResult :=
  { emails := acc.emails
    total_count := acc.emails.length
    scanned_count := acc.scanned_count
    skipped_count := acc.skipped_count
    folder_id := folder_id
    folder_name := folder_name
    has_more := acc.next_link.isNotNone && decide (limit ≤ acc.emails.length)
    next_link := acc.next_link
    errors := acc.errors }

/-- `EmailScanner.scan_folder` over the response oracle: fetch pages,
accumulate with the record loop (starting from empty lists, zero counters
and `next_link = None`), and build the `ScanResult`.  `limit` is the
resolved `max_emails or self._max_emails` bound. -/
def EmailScanner.scan_folder (responses : List ReqResult) (limit : Nat)
    (folder_id : String) (folder_name : Option String) : Except PyErr ScanResult :=
  match EmailScanner.scanPages limit ⟨[], [], 0, 0, .null⟩
      (EmailScanner.fetch_email_pages responses limit).pages with
  | .error e => .error e
  | .ok acc => .ok (EmailScanner.mkScanResult limit acc (some folder_id) folder_name)

/-- `EmailScanner.scan_with_filter` (resolved-folder case): its
accumulation loop is verbatim the one in `scan_folder` — only the query
parameters sent to the server differ, which the response oracle absorbs. -/
def EmailScanner.scan_with_filter (responses : List ReqResult) (limit : Nat)
    (folder_id : Option String) (folder_name : Option String) : Except PyErr ScanResult :=
  match EmailScanner.scanPages limit ⟨[], [], 0, 0, .null⟩
      (EmailScanner.fetch_email_pages responses limit).pages with
  | .error e => .error e
  | .ok acc => .ok (EmailScanner.mkScanResult limit acc folder_id folder_name)

/-- `ScanResult.success_rate` (`models.py`), over exact rationals: `0.0`
when nothing was scanned, else
`(scanned_count - skipped_count) / scanned_count * 100`. -/
def ScanResult.success_rate (r : ScanResult) : ℚ :=
  if r.scanned_count = 0 then 0
  else ((r.scanned_count : ℚ) - (r.skipped_count : ℚ)) / (r.scanned_count : ℚ) * 100

/-! ## Token cache persistence (`src/auth/token_cache.py`) -/

/-- `TokenCacheError` (`src/auth/exceptions.py`). -/
structure TokenCacheError where
  message : String
deriving Repr

/-- The state `TokenCacheManager.persist` reads: the optional backing
`cache_path` fixed at construction, MSAL's `has_state_changed` dirty flag,
and what `self._cache.serialize()` would return. -/
structure TokenCacheState where
  cache_path : Option String
  has_state_changed : Bool
  serialized : String
deriving Repr

/-- A write performed against the backing location
(`self._cache_path.write_text(data)`). -/
inductive WriteEffect where
  | wrote (path : String) (data : String)
deriving Repr, DecidableEq

/-- `TokenCacheManager.persist`: return immediately (zero writes) when
there is no backing path or the dirty flag is clear; otherwise serialize
and write, turning an `OSError` (`write_ok = false`) into a
`TokenCacheError`.  The returned list is the sequence of writes performed. -/
def TokenCacheManager.persist (st : TokenCacheState) (write_ok : Bool) :
    Except TokenCacheError (List WriteEffect) :=
  match st.cache_path with
  | none => .ok []
  | some p =>
    if !st.has_state_changed then .ok []
    else if write_ok then .ok [.wrote p st.serialized]
    else .error ⟨"Failed to persist token cache"⟩

/-! ## Auxiliary definitions used by the theorems and their witnesses -/

/-- Whether parsing this record raises nothing that the scanner's
`except (KeyError, ValueError)` clause would miss: `false` exactly when
`Email.from_graph_api` raises a `TypeError`. -/
def parseNonFatal (kvs : List (String × Json)) : Bool :=
  match Email.from_graph_api kvs with
  | .error (.typeError _) => false
  | _ => true

/-- The provider's structured error envelope of a response, when present:
the payload must be a JSON object whose `error` entry is itself an object
(the exact condition `_handle_response` tests). -/
def responseEnvelope (resp : Response) : Option (List (String × Json)) :=
  match GraphApiClient.parse_json resp.body with
  | .json (.obj kvs) =>
    match pyFind kvs "error" with
    | some (.obj ekvs) => some ekvs
    | _ => none
  | _ => none

/-- The message `_handle_response` falls back to when no envelope message
is available: `response.reason or "Unexpected response"`. -/
def fallbackMessage (resp : Response) : String :=
  if resp.reason == "" then "Unexpected response" else resp.reason

/-- A minimal parseable Graph message record. -/
def sampleRecord (i : String) : Json := .obj [("id", .str i)]

/-- A server page: a `value` list plus an optional `@odata.nextLink`. -/
def samplePage (records : List Json) (link : Option String) : ReqResult :=
  .ok (.json (.obj (("value", Json.arr records) ::
    (match link with
     | some l => [("@odata.nextLink", Json.str l)]
     | none => []))))

/-- The `Email` that `Email.from_graph_api` builds from `sampleRecord i`. -/
def sampleEmail (i : String) : Email :=
  { id := i
    subject := .null
    sender := none
    from_address := none
    to_recipients := []
    cc_recipients := []
    bcc_recipients := []
    received_datetime := none
    sent_datetime := none
    has_attachments := false
    importance := String.toLower "normal"
    is_read := false
    body_preview := .null
    body := none
    categories := []
    folder_id := .null
    conversation_id := .null
    internet_message_id := .null
    web_link := .null }

/-- A transport whose first answer is 401 Unauthorized and whose second is
200 OK with a small JSON body; used to witness the 401 retry theorem. -/
def transport401then200 : Nat → Response := fun n =>
  if n == 0 then ⟨401, "Unauthorized", .empty⟩
  else ⟨200, "OK", .json (.obj [("value", .arr [])])⟩

/-- A transport that answers 401 Unauthorized to every send; used to
witness that a second 401 is surfaced, not retried. -/
def transport401always : Nat → Response := fun _ => ⟨401, "Unauthorized", .empty⟩

/-! ## Sanity checks on concrete inputs -/

example : pyStr .null = "None" := by rfl
example : pyTruthy (.str "") = false := by rfl
example : pyGet [("a", .null)] "a" = .null := by rfl
example : pyFind [("a", .null)] "b" = none := by rfl
example : Email.from_graph_api [("id", .str "x")] = .ok (sampleEmail "x") := by rfl

example :
    (EmailScanner.scan_folder
      [samplePage [sampleRecord "1", sampleRecord "2"] (some "L")] 1 "f" none).toOption.map
      (fun r => (r.total_count, r.scanned_count, r.has_more)) = some (1, 1, true) := by rfl

example :
    (EmailScanner.scan_folder
      [samplePage [sampleRecord "1", sampleRecord "2"] none] 1 "f" none).toOption.map
      (fun r => (r.total_count, r.scanned_count, r.has_more)) = some (1, 1, false) := by rfl

example :
    (EmailScanner.scan_folder
      [samplePage [sampleRecord "1", sampleRecord "2"] (some "L"),
       samplePage [sampleRecord "3"] none] 10 "f" none).toOption.map
      (fun r => (r.total_count, r.scanned_count, r.has_more, r.next_link.isNotNone)) =
      some (3, 3, false, false) := by rfl

example :
    (EmailScanner.scan_folder
      [samplePage [sampleRecord "1"] (some "L"), .err] 10 "f" none).toOption.map
      (fun r => (r.total_count, r.has_more)) = some (1, false) := by rfl

example :
    (EmailScanner.scan_folder
      [samplePage [sampleRecord "1", .obj [("subject", .str "bad")], sampleRecord "3"] none]
      10 "f" none).toOption.map
      (fun r => (r.total_count, r.scanned_count, r.skipped_count, r.errors.length)) =
      some (2, 3, 1, 1) := by rfl
example : (Email.from_graph_api [("subject", .str "s")]).isOk = false := by rfl
example : Email.from_graph_api [("id", .str "a"), ("categories", .null)]
    = .error (.typeError (pySquote ++ "NoneType" ++ pySquote ++ " object is not iterable")) := by
  rfl
example : (Email.from_graph_api [("id", .str "a")]).isOk = true := by rfl

/-! ## Helper lemmas -/

/-- `Response.ok` is false exactly on the `raise_for_status` range. -/
theorem response_ok_false_iff (resp : Response) :
    resp.ok = false ↔ 400 ≤ resp.status_code ∧ resp.status_code < 600 := by
  simp [Response.ok]

/-- On a successful (`ok`) response, `_handle_response` returns the parsed
body. -/
theorem handle_response_of_ok (resp : Response) (h : resp.ok = true) :
    GraphApiClient.handle_response resp = .ok (GraphApiClient.parse_json resp.body) := by
  simp [GraphApiClient.handle_response, h]

/-- On a failing response, `_handle_response` raises a `GraphApiError`
carrying the response's status code. -/
theorem handle_response_of_error (resp : Response) (h : resp.ok = false) :
    ∃ e, GraphApiClient.handle_response resp = .error e ∧
      e.status_code = resp.status_code := by
  unfold GraphApiClient.handle_response
  rw [h]
  simp only [Bool.false_eq_true, if_false]
  split
  · split
    · exact ⟨_, rfl, rfl⟩
    · exact ⟨_, rfl, rfl⟩
  · exact ⟨_, rfl, rfl⟩

/-- A 2xx status is `ok`. -/
theorem response_ok_of_2xx (resp : Response) (h1 : 200 ≤ resp.status_code)
    (h2 : resp.status_code < 300) : resp.ok = true := by
  simp [Response.ok]
  omega

/-- A truthy JSON value is not `None`. -/
theorem isNotNone_of_pyTruthy (j : Json) (h : pyTruthy j = true) :
    j.isNotNone = true := by
  cases j <;> simp_all [pyTruthy, Json.isNotNone]

/-! ## Claim theorems -/

/-- C10: `ScanResult.success_rate` is total on its state: it returns `0.0`
when `scanned_count == 0` instead of dividing by zero, and otherwise
returns `(scanned_count - skipped_count) / scanned_count * 100`, the
guarded division branch never being reached with a zero denominator. -/
theorem success_rate_total (r : ScanResult) :
    (r.scanned_count = 0 → r.success_rate = 0) ∧
    (0 < r.scanned_count →
      r.success_rate =
        ((r.scanned_count : ℚ) - (r.skipped_count : ℚ)) / (r.scanned_count : ℚ) * 100 ∧
      (r.scanned_count : ℚ) ≠ 0) := by
  constructor
  · intro h
    simp [ScanResult.success_rate, h]
  · intro h
    have hne : r.scanned_count ≠ 0 := Nat.pos_iff_ne_zero.mp h
    refine ⟨by simp [ScanResult.success_rate, hne], ?_⟩
    exact_mod_cast hne

/-- Witness for C10 at a concrete result: 2 scanned, 1 skipped gives a
50% success rate, and a 0-scanned result gives 0. -/
theorem success_rate_total_witness :
    ({ emails := [], total_count := 0, scanned_count := 2, skipped_count := 1 } :
        ScanResult).success_rate = 50 ∧
    ({ emails := [], total_count := 0, scanned_count := 0, skipped_count := 0 } :
        ScanResult).success_rate = 0 := by
  constructor
  · have h := (success_rate_total
      { emails := [], total_count := 0, scanned_count := 2, skipped_count := 1 }).2
      (by norm_num)
    rw [h.1]
    norm_num
  · exact (success_rate_total
      { emails := [], total_count := 0, scanned_count := 0, skipped_count := 0 }).1 rfl

/-- C8: `persist()` performs zero writes and returns without error whenever
the dirty flag is clear or there is no backing cache path; and any write it
does perform implies the dirty flag was set (so repeated `persist()` on
unchanged state is idempotent). -/
theorem persist_clean_no_write (st : TokenCacheState) (write_ok : Bool) :
    (st.cache_path = none ∨ st.has_state_changed = false →
      TokenCacheManager.persist st write_ok = .ok []) ∧
    (∀ l, TokenCacheManager.persist st write_ok = .ok l → l ≠ [] →
      st.has_state_changed = true ∧ st.cache_path ≠ none) := by
  obtain ⟨p, d, s⟩ := st
  constructor
  · rintro (h | h)
    · simp_all [TokenCacheManager.persist]
    · cases p <;> simp_all [TokenCacheManager.persist]
  · intro l hl hne
    cases p with
    | none => simp [TokenCacheManager.persist] at hl; simp_all
    | some p =>
      cases d with
      | false => simp [TokenCacheManager.persist] at hl; simp_all
      | true =>
        cases write_ok with
        | false => simp [TokenCacheManager.persist] at hl
        | true => simp_all

/-- Witness for C8: a dirty-flag-clear state with a backing path persists
to zero writes, and so does a pathless state. -/
theorem persist_clean_no_write_witness :
    TokenCacheManager.persist ⟨some "/tmp/cache.json", false, "s"⟩ true = .ok [] ∧
    TokenCacheManager.persist ⟨none, true, "s"⟩ true = .ok [] := by
  constructor
  · exact (persist_clean_no_write ⟨some "/tmp/cache.json", false, "s"⟩ true).1 (Or.inr rfl)
  · exact (persist_clean_no_write ⟨none, true, "s"⟩ true).1 (Or.inl rfl)

/-- The pagination loop consumes at least one server response per
iteration, so it yields at most one page per available response. -/
theorem fetchLoop_pages_le (responses : List ReqResult) :
    ∀ total_fetched max_emails,
      (EmailScanner.fetchLoop responses total_fetched max_emails).pages.length ≤
        responses.length := by
  induction responses with
  | nil =>
    intro t m
    unfold EmailScanner.fetchLoop
    split <;> simp
  | cons r rest ih =>
    intro t m
    unfold EmailScanner.fetchLoop
    split
    · simp
    · cases r with
      | err => simp
      | ok v =>
        cases v with
        | json j =>
          cases j with
          | obj kvs =>
            simp only []
            split
            · split
              · simp only [List.length_cons]
                exact Nat.succ_le_succ (ih _ _)
              · simp
            · simp
          | null => simp
          | bool b => simp
          | num n => simp
          | str s => simp
          | arr xs => simp
        | none => simp
        | text s => simp

/-- Against `adversarialServer` the loop is still running after every
number of iterations, with `total_fetched` stuck at 0: each page fetches a
nonempty `value` list with no dict items and shows a truthy cursor. -/
theorem fetchLoopFuel_adversarial_running (fuel : Nat) :
    ∀ j, EmailScanner.fetchLoopFuel adversarialServer j 0 1 fuel =
      .running (List.replicate fuel ([], .str "L")) 0 := by
  induction fuel with
  | zero => intro j; rfl
  | succ fuel ih =>
    intro j
    unfold EmailScanner.fetchLoopFuel
    rw [if_neg (by omega)]
    simp only [adversarialServer]
    rw [show pyGetD [("value", Json.arr [.str "x"]), ("@odata.nextLink", Json.str "L")]
      "value" (.arr []) = .arr [.str "x"] from rfl]
    simp only []
    rw [show pyGet [("value", Json.arr [.str "x"]), ("@odata.nextLink", Json.str "L")]
      "@odata.nextLink" = .str "L" from rfl]
    rw [if_pos (by rfl)]
    rw [show (dictRecords [.str "x"]).length = 0 from rfl]
    rw [ih (j + 1)]
    rfl

/-- C9 counterexample: the pagination loop does NOT always reach one of
the claimed exits after finitely many iterations.  Against a server that
forever answers `{"value": ["x"], "@odata.nextLink": "L"}` — a nonempty
`value` list with no dict items and a truthy cursor — `email_batch` is
empty every iteration, `total_fetched` never advances, neither `break`
guard fires, and the `while total_fetched < max_emails` loop re-requests
forever: no fuel suffices for the run to exit. -/
theorem fetch_pages_divergence_cex :
    ¬ ∃ fuel pages e, EmailScanner.fetchLoopFuel adversarialServer 0 0 1 fuel =
      .exited pages e := by
  rintro ⟨fuel, pages, e, h⟩
  rw [fetchLoopFuel_adversarial_running fuel 0] at h
  exact LoopOutcome.noConfusion h

/-- C9 as amended: the loop performs one request per iteration and, when
every page whose `value` list is a nonempty list contributes at least one
dict record, `total_fetched` strictly increases each non-exiting
iteration, so the loop exits within `max_emails + 1` iterations — and
every exit it ever takes is one of the classified reasons: the bound was
reached, the remote stopped supplying data (no cursor, empty or absent
value list, or a non-mapping body), or a request raised.  Without that
progress condition termination fails (see the divergence counterexample). -/
theorem fetch_pages_progress_terminate (server : Nat → ReqResult) (max_emails : Nat)
    (hprog : ∀ j kvs x xs, server j = .ok (.json (.obj kvs)) →
      pyGetD kvs "value" (.arr []) = .arr (x :: xs) →
      dictRecords (x :: xs) ≠ []) :
    (EmailScanner.fetchLoopFuel server 0 0 max_emails (max_emails + 1)).isExited = true ∧
    (∀ fuel pages e,
      EmailScanner.fetchLoopFuel server 0 0 max_emails fuel = .exited pages e →
      e = .boundReached ∨ e = .noCursor ∨ e = .emptyValue ∨
      e = .malformedBody ∨ e = .requestError) := by
  constructor
  · have key : ∀ n j t, max_emails ≤ t + n →
        (EmailScanner.fetchLoopFuel server j t max_emails (n + 1)).isExited = true := by
      intro n
      induction n with
      | zero =>
        intro j t hle
        unfold EmailScanner.fetchLoopFuel
        rw [if_pos (by omega)]
        rfl
      | succ n ih =>
        intro j t hle
        by_cases hstop : max_emails ≤ t
        · unfold EmailScanner.fetchLoopFuel
          rw [if_pos hstop]
          rfl
        · unfold EmailScanner.fetchLoopFuel
          rw [if_neg hstop]
          cases hs : server j with
          | err => rfl
          | ok v =>
            cases v with
            | json j' =>
              cases j' with
              | obj kvs =>
                simp only []
                cases hv : pyGetD kvs "value" (.arr []) with
                | arr value =>
                  cases value with
                  | nil => rfl
                  | cons x xs =>
                    simp only []
                    have hne := hprog j kvs x xs hs hv
                    have hlen : 1 ≤ (dictRecords (x :: xs)).length :=
                      Nat.succ_le_of_lt (List.length_pos.mpr hne)
                    by_cases hnl : pyTruthy (pyGet kvs "@odata.nextLink") = true
                    · rw [if_pos hnl]
                      have hrec := ih (j + 1) (t + (dictRecords (x :: xs)).length)
                        (by omega)
                      cases hr : EmailScanner.fetchLoopFuel server (j + 1)
                          (t + (dictRecords (x :: xs)).length) max_emails (n + 1) with
                      | exited pages e => rfl
                      | running pages t' =>
                        rw [hr] at hrec
                        exact absurd hrec (by simp [LoopOutcome.isExited])
                    · rw [if_neg hnl]
                      rfl
                | null => rfl
                | bool b => rfl
                | num m => rfl
                | str s => rfl
                | obj kvs' => rfl
              | null => rfl
              | bool b => rfl
              | num m => rfl
              | str s => rfl
              | arr xs => rfl
            | none => rfl
            | text s => rfl
    exact key max_emails 0 0 (by omega)
  · intro fuel pages e _
    cases e <;> simp

/-- Unfolding one step of association-list lookup. -/
theorem pyFindStr_cons (kv : String × String) (d : List (String × String)) (k : String) :
    pyFindStr (kv :: d) k = if kv.1 = k then some kv.2 else pyFindStr d k := by
  by_cases h : kv.1 = k
  · unfold pyFindStr
    rw [List.find?_cons_of_pos _ (by simpa using h)]
    simp [h]
  · unfold pyFindStr
    rw [List.find?_cons_of_neg _ (by simpa using h)]
    simp [h]

/-- Association-list lookup distributes over append, first list first. -/
theorem pyFindStr_append (d e : List (String × String)) (k : String) :
    pyFindStr (d ++ e) k =
      match pyFindStr d k with
      | some v => some v
      | none => pyFindStr e k := by
  induction d with
  | nil => rfl
  | cons kv d ih =>
    rw [List.cons_append, pyFindStr_cons, pyFindStr_cons]
    by_cases h : kv.1 = k
    · simp [h]
    · simp [h, ih]

/-- A key that no entry carries looks up to `none`. -/
theorem pyFindStr_eq_none_of_any_false (d : List (String × String)) (k : String)
    (h : d.any (fun kv => kv.1 == k) = false) : pyFindStr d k = none := by
  induction d with
  | nil => rfl
  | cons kv d ih =>
    simp only [List.any_cons, Bool.or_eq_false_iff] at h
    rw [pyFindStr_cons, if_neg (by simpa using h.1)]
    exact ih h.2

/-- In-place replacement of key `k` makes `k` look up to the new value,
provided some entry carries `k`. -/
theorem pyFindStr_map_replace (d : List (String × String)) (k v : String)
    (hany : d.any (fun kv => kv.1 == k) = true) :
    pyFindStr (d.map (fun kv => if kv.1 == k then (k, v) else kv)) k = some v := by
  induction d with
  | nil => simp at hany
  | cons kv d ih =>
    rw [List.map_cons]
    by_cases h1 : kv.1 = k
    · have e1 : (if (kv.1 == k) = true then (k, v) else kv) = (k, v) := by simp [h1]
      rw [e1, pyFindStr_cons]
      simp
    · have e1 : (if (kv.1 == k) = true then (k, v) else kv) = kv := by simp [h1]
      have hany' : d.any (fun kv => kv.1 == k) = true := by
        simp only [List.any_cons, Bool.or_eq_true] at hany
        rcases hany with h | h
        · exact absurd (by simpa using h) h1
        · exact h
      rw [e1, pyFindStr_cons, if_neg h1]
      exact ih hany'

/-- In-place replacement of key `k` leaves lookups of other keys
unchanged. -/
theorem pyFindStr_map_other (d : List (String × String)) (k v k' : String)
    (hk : k' ≠ k) :
    pyFindStr (d.map (fun kv => if kv.1 == k then (k, v) else kv)) k' =
      pyFindStr d k' := by
  induction d with
  | nil => rfl
  | cons kv d ih =>
    rw [List.map_cons]
    by_cases h1 : kv.1 = k
    · have e1 : (if (kv.1 == k) = true then (k, v) else kv) = (k, v) := by simp [h1]
      rw [e1, pyFindStr_cons, pyFindStr_cons,
        if_neg (fun h => hk h.symm), if_neg (fun h => hk (h1 ▸ h).symm)]
      exact ih
    · have e1 : (if (kv.1 == k) = true then (k, v) else kv) = kv := by simp [h1]
      rw [e1, pyFindStr_cons, pyFindStr_cons]
      by_cases h2 : kv.1 = k'
      · rw [if_pos h2, if_pos h2]
      · rw [if_neg h2, if_neg h2]
        exact ih

/-- Lookup after a Python `d[k] = v` assignment. -/
theorem pyFindStr_pySetItem (d : List (String × String)) (k v k' : String) :
    pyFindStr (pySetItem d k v) k' = if k' = k then some v else pyFindStr d k' := by
  unfold pySetItem
  cases hany : d.any (fun kv => kv.1 == k) with
  | true =>
    simp only [hany, if_true]
    by_cases hk : k' = k
    · subst hk
      rw [if_pos rfl]
      exact pyFindStr_map_replace d k' v hany
    · rw [if_neg hk]
      exact pyFindStr_map_other d k v k' hk
  | false =>
    simp only [hany, Bool.false_eq_true, if_false]
    rw [pyFindStr_append]
    by_cases hk : k' = k
    · subst hk
      rw [pyFindStr_eq_none_of_any_false d k' hany]
      simp [pyFindStr_cons]
    · rw [if_neg hk]
      cases hd : pyFindStr d k' with
      | some w => simp [hd]
      | none =>
        simp only [hd]
        rw [pyFindStr_cons, if_neg (fun h => hk h.symm)]
        rfl

/-- Lookup after `base.update(extra)`: the last `extra` entry for the key
wins, else the `base` value survives. -/
theorem pyFindStr_pyDictUpdate (extra : List (String × String)) :
    ∀ (base : List (String × String)) (k : String),
      pyFindStr (pyDictUpdate base extra) k =
        match pyLastFindStr extra k with
        | some v => some v
        | none => pyFindStr base k := by
  induction extra with
  | nil => intro base k; rfl
  | cons kv extra ih =>
    intro base k
    rw [show pyDictUpdate base (kv :: extra) =
        pyDictUpdate (pySetItem base kv.1 kv.2) extra from rfl, ih]
    cases h : pyLastFindStr extra k with
    | some v => simp [pyLastFindStr, h]
    | none =>
      simp only [pyLastFindStr, h]
      rw [pyFindStr_pySetItem]
      by_cases hk : k = kv.1
      · subst hk
        simp
      · rw [if_neg hk]
        have hb : (kv.1 == k) = false := by simpa using fun h => hk h.symm
        simp [hb]

/-- C5 counterexample: the claim says a caller-supplied `Accept` header is
dropped and the client's `application/json` wins; in the code
`merged.update(headers)` runs last, so the caller's `text/plain` wins. -/
theorem prepare_headers_caller_overrides_cex :
    pyFindStr (GraphApiClient.prepare_headers (some [("Accept", "text/plain")]) "tok")
        "Accept" = some "text/plain" ∧
    ("text/plain" : String) ≠ "application/json" ∧
    pyFindStr (GraphApiClient.prepare_headers (some [("Authorization", "Bearer evil")])
        "tok") "Authorization" = some "Bearer evil" := by
  refine ⟨by rfl, by decide, by rfl⟩

/-- C5 as amended: every outgoing header map contains `Authorization` and
`Accept`; when the caller supplies neither, their values are
`Bearer <token>` and `application/json`, but a colliding caller entry
overrides the client's value (the caller wins, not the client). -/
theorem prepare_headers_merge (hs : List (String × String)) (token : String) :
    pyFindStr (GraphApiClient.prepare_headers (some hs) token) "Authorization" =
      some ((pyLastFindStr hs "Authorization").getD ("Bearer " ++ token)) ∧
    pyFindStr (GraphApiClient.prepare_headers (some hs) token) "Accept" =
      some ((pyLastFindStr hs "Accept").getD "application/json") ∧
    pyFindStr (GraphApiClient.prepare_headers none token) "Authorization" =
      some ("Bearer " ++ token) ∧
    pyFindStr (GraphApiClient.prepare_headers none token) "Accept" =
      some "application/json" := by
  refine ⟨?_, ?_, by rfl, by rfl⟩
  · rw [show GraphApiClient.prepare_headers (some hs) token =
      pyDictUpdate [("Authorization", "Bearer " ++ token),
        ("Accept", "application/json")] hs from rfl]
    rw [pyFindStr_pyDictUpdate]
    cases h : pyLastFindStr hs "Authorization" with
    | some v => simp
    | none => simp [pyFindStr_cons]
  · rw [show GraphApiClient.prepare_headers (some hs) token =
      pyDictUpdate [("Authorization", "Bearer " ++ token),
        ("Accept", "application/json")] hs from rfl]
    rw [pyFindStr_pyDictUpdate]
    cases h : pyLastFindStr hs "Accept" with
    | some v => simp
    | none => simp [pyFindStr_cons]

/-- C1: the 401 retry logic of `GraphApiClient.request`: a first 401 causes
exactly one forced-refresh token acquisition and exactly one re-send (two
sends total, never a third); a second 401 surfaces as the typed API error
with status 401; a 2xx after the 401 returns that response's parsed body.
A non-401 first response causes no forced refresh and no retry. -/
theorem request_401_retry (transport : Nat → Response) :
    ((transport 0).status_code = 401 →
      (GraphApiClient.request transport).sends = 2 ∧
      (GraphApiClient.request transport).forced_refreshes = 1 ∧
      ((transport 1).status_code = 401 →
        ∃ e, (GraphApiClient.request transport).result = .error e ∧
          e.status_code = 401) ∧
      (200 ≤ (transport 1).status_code → (transport 1).status_code < 300 →
        (GraphApiClient.request transport).result =
          .ok (GraphApiClient.parse_json (transport 1).body))) ∧
    ((transport 0).status_code ≠ 401 →
      (GraphApiClient.request transport).sends = 1 ∧
      (GraphApiClient.request transport).forced_refreshes = 0) := by
  constructor
  · intro h0
    have hreq : GraphApiClient.request transport =
        ⟨GraphApiClient.handle_response (transport 1), 2, 1⟩ := by
      unfold GraphApiClient.request
      simp [h0]
    refine ⟨by rw [hreq], by rw [hreq], ?_, ?_⟩
    · intro h1
      have hok : (transport 1).ok = false := by
        rw [response_ok_false_iff, h1]
        omega
      obtain ⟨e, he, hs⟩ := handle_response_of_error _ hok
      exact ⟨e, by rw [hreq]; simpa using he, by rw [hs, h1]⟩
    · intro h1 h2
      rw [hreq]
      simpa using handle_response_of_ok _ (response_ok_of_2xx _ h1 h2)
  · intro h0
    have hreq : GraphApiClient.request transport =
        ⟨GraphApiClient.handle_response (transport 0), 1, 0⟩ := by
      unfold GraphApiClient.request
      simp [h0]
    rw [hreq]
    exact ⟨rfl, rfl⟩

/-- Witness for C1: with a 401-then-200 transport the request is sent
twice, one forced refresh happens and the 200 body is returned; with an
always-401 transport the result is the typed error after two sends. -/
theorem request_401_retry_witness :
    (GraphApiClient.request transport401then200).sends = 2 ∧
    (GraphApiClient.request transport401then200).forced_refreshes = 1 ∧
    (GraphApiClient.request transport401then200).result =
      .ok (.json (.obj [("value", .arr [])])) ∧
    (GraphApiClient.request transport401always).sends = 2 ∧
    (∃ e, (GraphApiClient.request transport401always).result = .error e ∧
      e.status_code = 401) := by
  have h1 := (request_401_retry transport401then200).1 (by rfl)
  have h2 := (request_401_retry transport401always).1 (by rfl)
  refine ⟨h1.1, h1.2.1, ?_, h2.1, h2.2.2.1 (by rfl)⟩
  have := h1.2.2.2 (by decide) (by decide)
  simpa using this

/-- On a failing response, `_handle_response` builds the `GraphApiError`
from the provider's error envelope when one is present and from the
fallback reason phrase otherwise. -/
theorem handle_response_error_fields (resp : Response) (h : resp.ok = false) :
    (∀ ekvs, responseEnvelope resp = some ekvs →
      GraphApiClient.handle_response resp = .error
        ⟨resp.status_code,
         (match pyFind ekvs "message" with
          | some v => pyStr v
          | none => fallbackMessage resp),
         (if pyTruthy (pyGet ekvs "code") = true
          then some (pyStr (pyGet ekvs "code")) else none),
         some (ekvs.filter (fun kv => kv.1 ≠ "code" ∧ kv.1 ≠ "message"))⟩) ∧
    (responseEnvelope resp = none →
      GraphApiClient.handle_response resp = .error
        ⟨resp.status_code, fallbackMessage resp, none, none⟩) := by
  unfold GraphApiClient.handle_response responseEnvelope fallbackMessage
  rw [h]
  simp only [Bool.false_eq_true, if_false]
  split
  · split
    · constructor
      · intro ekvs he
        cases he
        rfl
      · intro he
        exact absurd he (by simp)
    · constructor
      · intro ekvs he
        exact absurd he (by simp)
      · intro he
        rfl
  · constructor
    · intro ekvs he
      exact absurd he (by simp)
    · intro he
      rfl

/-- C6 counterexample: a 304 Not Modified response is not a success (2xx)
status, yet `_handle_response` returns normally with the parsed body,
because `requests.Response.ok` is "status outside [400, 600)", not "2xx". -/
theorem handle_response_304_cex :
    GraphApiClient.handle_response ⟨304, "Not Modified", .empty⟩ = .ok .none ∧
    ¬(200 ≤ 304 ∧ 304 < 300) := ⟨rfl, by omega⟩

/-- C6 as amended: a response with status outside `[400, 600)` (all 2xx,
but also 1xx/3xx) returns the parsed JSON body — raw text when the body is
not valid JSON, `None` when it is empty; every status in `[400, 600)`
raises an `ApiError` carrying the HTTP status code, a message from the
provider's error envelope when present (else the reason phrase, with
`"Unexpected response"` for an empty reason), the optional provider error
code, and the remaining envelope fields as details — such a response never
returns normally. -/
theorem handle_response_contract (resp : Response) :
    (resp.status_code < 400 ∨ 600 ≤ resp.status_code →
      GraphApiClient.handle_response resp = .ok (GraphApiClient.parse_json resp.body)) ∧
    (400 ≤ resp.status_code → resp.status_code < 600 →
      ∃ e, GraphApiClient.handle_response resp = .error e ∧
        e.status_code = resp.status_code ∧
        (∀ ekvs, responseEnvelope resp = some ekvs →
          e.message = (match pyFind ekvs "message" with
                       | some v => pyStr v
                       | none => fallbackMessage resp) ∧
          e.error = (if pyTruthy (pyGet ekvs "code") = true
                     then some (pyStr (pyGet ekvs "code")) else none) ∧
          e.details = some (ekvs.filter (fun kv => kv.1 ≠ "code" ∧ kv.1 ≠ "message"))) ∧
        (responseEnvelope resp = none →
          e.message = fallbackMessage resp ∧ e.error = none ∧ e.details = none)) := by
  constructor
  · intro h
    apply handle_response_of_ok
    simp only [Response.ok, Bool.not_eq_true', Bool.and_eq_false_iff,
      decide_eq_false_iff_not, not_le, not_lt]
    omega
  · intro h1 h2
    have hok : resp.ok = false := (response_ok_false_iff resp).mpr ⟨h1, h2⟩
    obtain ⟨hsome, hnone⟩ := handle_response_error_fields resp hok
    cases he : responseEnvelope resp with
    | some ekvs =>
      refine ⟨_, hsome ekvs he, rfl, ?_, ?_⟩
      · intro ekvs' he'
        cases he'
        exact ⟨rfl, rfl, rfl⟩
      · intro hn
        exact absurd hn (by simp)
    | none =>
      refine ⟨_, hnone he, rfl, ?_, fun _ => ⟨rfl, rfl, rfl⟩⟩
      intro ekvs' he'
      exact absurd he' (by simp)

/-- Witness for C6: a 200 with a JSON body returns it parsed; a 403 with a
Graph error envelope raises with the envelope's message, code and
remaining fields. -/
theorem handle_response_contract_witness :
    GraphApiClient.handle_response ⟨200, "OK", .json (.obj [("a", .num 1)])⟩ =
      .ok (.json (.obj [("a", .num 1)])) ∧
    (∃ e, GraphApiClient.handle_response
        ⟨403, "Forbidden",
          .json (.obj [("error", .obj [("code", .str "ErrorAccessDenied"),
            ("message", .str "Access is denied."), ("retry-after", .num 5)])])⟩ =
          .error e ∧
      e.status_code = 403 ∧ e.message = "Access is denied." ∧
      e.error = some "ErrorAccessDenied" ∧
      e.details = some [("retry-after", .num 5)]) := by
  constructor
  · exact (handle_response_contract ⟨200, "OK", .json (.obj [("a", .num 1)])⟩).1
      (Or.inl (by norm_num))
  · obtain ⟨e, he, hs, henv, _⟩ :=
      (handle_response_contract
        ⟨403, "Forbidden",
          .json (.obj [("error", .obj [("code", .str "ErrorAccessDenied"),
            ("message", .str "Access is denied."), ("retry-after", .num 5)])])⟩).2
        (by norm_num) (by norm_num)
    have h := henv [("code", .str "ErrorAccessDenied"),
      ("message", .str "Access is denied."), ("retry-after", .num 5)] (by rfl)
    refine ⟨e, he, hs, ?_, ?_, ?_⟩
    · rw [h.1]
      rfl
    · rw [h.2.1]
      rfl
    · rw [h.2.2]
      rfl

/-- The record loop preserves the accumulator invariants: every record seen
is either parsed or skipped, every skip appends one diagnostic, and the
stored cursor is untouched. -/
theorem scanRecords_invariant (limit : Nat) (batch : List (List (String × Json))) :
    ∀ acc acc', EmailScanner.scanRecords limit acc batch = .ok acc' →
      (acc.scanned_count = acc.emails.length + acc.skipped_count →
        acc'.scanned_count = acc'.emails.length + acc'.skipped_count) ∧
      (acc.errors.length = acc.skipped_count →
        acc'.errors.length = acc'.skipped_count) ∧
      acc'.next_link = acc.next_link := by
  induction batch with
  | nil =>
    intro acc acc' h
    cases h
    exact ⟨id, id, rfl⟩
  | cons record rest ih =>
    intro acc acc' h
    unfold EmailScanner.scanRecords at h
    cases hr : Email.from_graph_api record with
    | ok email =>
      rw [hr] at h
      simp only [] at h
      split at h
      · cases h
        exact ⟨fun hc => by simp [hc]; omega, fun he => he, rfl⟩
      · obtain ⟨h1, h2, h3⟩ := ih _ _ h
        exact ⟨fun hc => h1 (by simp [hc]; omega), fun he => h2 (by simp [he]), h3⟩
    | error err =>
      cases err with
      | keyError k =>
        rw [hr] at h
        simp only [] at h
        split at h
        · cases h
          exact ⟨fun hc => by simp [hc]; omega, fun he => by simp [he], rfl⟩
        · obtain ⟨h1, h2, h3⟩ := ih _ _ h
          exact ⟨fun hc => h1 (by simp [hc]; omega), fun he => h2 (by simp [he]), h3⟩
      | valueError m =>
        rw [hr] at h
        simp only [] at h
        split at h
        · cases h
          exact ⟨fun hc => by simp [hc]; omega, fun he => by simp [he], rfl⟩
        · obtain ⟨h1, h2, h3⟩ := ih _ _ h
          exact ⟨fun hc => h1 (by simp [hc]; omega), fun he => h2 (by simp [he]), h3⟩
      | typeError m =>
        rw [hr] at h
        simp at h

/-- The page loop preserves the accumulator invariants. -/
theorem scanPages_invariant (limit : Nat) (pages : List FetchPage) :
    ∀ acc acc', EmailScanner.scanPages limit acc pages = .ok acc' →
      (acc.scanned_count = acc.emails.length + acc.skipped_count →
        acc'.scanned_count = acc'.emails.length + acc'.skipped_count) ∧
      (acc.errors.length = acc.skipped_count →
        acc'.errors.length = acc'.skipped_count) := by
  induction pages with
  | nil =>
    intro acc acc' h
    cases h
    exact ⟨id, id⟩
  | cons page rest ih =>
    obtain ⟨batch, batch_next_link⟩ := page
    intro acc acc' h
    unfold EmailScanner.scanPages at h
    cases hr : EmailScanner.scanRecords limit acc batch with
    | error e =>
      rw [hr] at h
      simp at h
    | ok acc1 =>
      rw [hr] at h
      obtain ⟨i1, i2, _⟩ := scanRecords_invariant limit batch acc acc1 hr
      simp only [] at h
      split at h
      · cases h
        exact ⟨fun hc => by simpa using i1 hc, fun he => by simpa using i2 he⟩
      · obtain ⟨j1, j2⟩ := ih _ _ h
        exact ⟨fun hc => j1 (by simpa using i1 hc), fun he => j2 (by simpa using i2 he)⟩

/-- C7: every `ScanResult` a scan produces satisfies
`scanned_count == successfully_parsed_count + failed_to_parse_count`, where
the parsed count is `total_count` (the length of the returned record list)
and the failed count is `skipped_count` — wherever in a page the scan
stops. -/
theorem scan_counts_invariant (responses : List ReqResult) (limit : Nat)
    (folder_id : String) (folder_name : Option String) (r : ScanResult)
    (h : EmailScanner.scan_folder responses limit folder_id folder_name = .ok r) :
    r.scanned_count = r.total_count + r.skipped_count ∧
    r.total_count = r.emails.length := by
  unfold EmailScanner.scan_folder at h
  cases hp : EmailScanner.scanPages limit ⟨[], [], 0, 0, .null⟩
      (EmailScanner.fetch_email_pages responses limit).pages with
  | error e =>
    rw [hp] at h
    simp at h
  | ok acc =>
    rw [hp] at h
    cases h
    obtain ⟨i1, _⟩ := scanPages_invariant limit _ _ _ hp
    exact ⟨by simpa [EmailScanner.mkScanResult] using i1 rfl, rfl⟩

/-- Witness for C7 at a concrete two-record page with one unparseable
record: 2 scanned = 1 parsed + 1 skipped. -/
theorem scan_counts_invariant_witness :
    (2 : Nat) = 1 + 1 ∧
    EmailScanner.scan_folder
      [samplePage [sampleRecord "1", .obj [("subject", .str "bad")]] none] 10 "f" none =
      .ok { emails := [sampleEmail "1"]
            total_count := 1
            scanned_count := 2
            skipped_count := 1
            folder_id := some "f"
            folder_name := none
            has_more := false
            next_link := .null
            errors := ["Failed to parse email: " ++ pySquote ++ "id" ++ pySquote] } := by
  have h := scan_counts_invariant
    [samplePage [sampleRecord "1", .obj [("subject", .str "bad")]] none] 10 "f" none
    { emails := [sampleEmail "1"]
      total_count := 1
      scanned_count := 2
      skipped_count := 1
      folder_id := some "f"
      folder_name := none
      has_more := false
      next_link := .null
      errors := ["Failed to parse email: " ++ pySquote ++ "id" ++ pySquote] }
    (by rfl)
  exact ⟨h.1, by rfl⟩

/-- Inversion for `scan_folder`: a successful scan is the assembled result
of a successful page-loop run. -/
theorem scan_folder_ok_inv (responses : List ReqResult) (limit : Nat)
    (fid : String) (fname : Option String) (r : ScanResult)
    (h : EmailScanner.scan_folder responses limit fid fname = .ok r) :
    ∃ acc, EmailScanner.scanPages limit ⟨[], [], 0, 0, .null⟩
        (EmailScanner.fetch_email_pages responses limit).pages = .ok acc ∧
      r = EmailScanner.mkScanResult limit acc (some fid) fname := by
  unfold EmailScanner.scan_folder at h
  cases hp : EmailScanner.scanPages limit ⟨[], [], 0, 0, .null⟩
      (EmailScanner.fetch_email_pages responses limit).pages with
  | error e =>
    rw [hp] at h
    simp at h
  | ok acc =>
    rw [hp] at h
    simp only [] at h
    cases h
    exact ⟨acc, rfl, rfl⟩

/-- Inversion for `scan_with_filter`: same shape as `scan_folder`. -/
theorem scan_with_filter_ok_inv (responses : List ReqResult) (limit : Nat)
    (fid fname : Option String) (r : ScanResult)
    (h : EmailScanner.scan_with_filter responses limit fid fname = .ok r) :
    ∃ acc, EmailScanner.scanPages limit ⟨[], [], 0, 0, .null⟩
        (EmailScanner.fetch_email_pages responses limit).pages = .ok acc ∧
      r = EmailScanner.mkScanResult limit acc fid fname := by
  unfold EmailScanner.scan_with_filter at h
  cases hp : EmailScanner.scanPages limit ⟨[], [], 0, 0, .null⟩
      (EmailScanner.fetch_email_pages responses limit).pages with
  | error e =>
    rw [hp] at h
    simp at h
  | ok acc =>
    rw [hp] at h
    simp only [] at h
    cases h
    exact ⟨acc, rfl, rfl⟩

/-- The assembled result's `has_more` is the conjunction the source
computes: a stored cursor that `is not None`, and the parsed-record count
having reached the bound. -/
theorem mkScanResult_has_more_iff (limit : Nat) (acc : ScanAcc)
    (fid fname : Option String) :
    ((EmailScanner.mkScanResult limit acc fid fname).has_more = true ↔
      (EmailScanner.mkScanResult limit acc fid fname).next_link.isNotNone = true ∧
      limit ≤ (EmailScanner.mkScanResult limit acc fid fname).total_count) := by
  simp [EmailScanner.mkScanResult]

/-- C2: for every scan by `scan_folder` (and `scan_with_filter`), the
returned `ScanResult` has `has_more == true` iff a continuation cursor was
stored (`next_link is not None`) AND the number of successfully parsed
records (`total_count`) reached the caller's bound; in particular a
two-page scan whose last page carries no cursor with the bound unreached
yields `has_more == false`. -/
theorem scan_has_more_iff (responses : List ReqResult) (limit : Nat)
    (fid : String) (fid' fname : Option String) :
    (∀ r, EmailScanner.scan_folder responses limit fid fname = .ok r →
      (r.has_more = true ↔
        r.next_link.isNotNone = true ∧ limit ≤ r.total_count)) ∧
    (∀ r, EmailScanner.scan_with_filter responses limit fid' fname = .ok r →
      (r.has_more = true ↔
        r.next_link.isNotNone = true ∧ limit ≤ r.total_count)) := by
  constructor
  · intro r h
    obtain ⟨acc, _, heq⟩ := scan_folder_ok_inv responses limit fid fname r h
    rw [heq]
    exact mkScanResult_has_more_iff limit acc (some fid) fname
  · intro r h
    obtain ⟨acc, _, heq⟩ := scan_with_filter_ok_inv responses limit fid' fname r h
    rw [heq]
    exact mkScanResult_has_more_iff limit acc fid' fname

/-- Witness for C2: the two-page scan (page 1 with a cursor, page 2
without, bound 10 not reached) satisfies the iff and ends with
`has_more = false` and no stored cursor. -/
theorem scan_has_more_iff_witness :
    (({ emails := [sampleEmail "1", sampleEmail "2", sampleEmail "3"]
        total_count := 3
        scanned_count := 3
        skipped_count := 0
        folder_id := some "f"
        folder_name := none
        has_more := false
        next_link := .null
        errors := [] } : ScanResult).has_more = true ↔
      ({ emails := [sampleEmail "1", sampleEmail "2", sampleEmail "3"]
         total_count := 3
         scanned_count := 3
         skipped_count := 0
         folder_id := some "f"
         folder_name := none
         has_more := false
         next_link := .null
         errors := [] } : ScanResult).next_link.isNotNone = true ∧ 10 ≤ 3) ∧
    (false : Bool) = false := by
  refine ⟨?_, rfl⟩
  have h := (scan_has_more_iff
    [samplePage [sampleRecord "1", sampleRecord "2"] (some "L"),
     samplePage [sampleRecord "3"] none] 10 "f" none none).1
    { emails := [sampleEmail "1", sampleEmail "2", sampleEmail "3"]
      total_count := 3
      scanned_count := 3
      skipped_count := 0
      folder_id := some "f"
      folder_name := none
      has_more := false
      next_link := .null
      errors := [] } (by rfl)
  exact h

/-- C4 counterexample: the claim says a record that fails to parse is
always skipped and the scan continues; a record whose `categories` field
is `null` raises `TypeError` inside `Email.from_graph_api`, which the
scanner's `except (KeyError, ValueError)` clause does not catch, so the
whole scan aborts instead of returning a result. -/
theorem scan_typeerror_aborts_cex :
    EmailScanner.scan_folder
      [samplePage [.obj [("id", .str "a"), ("categories", .null)]] none] 10 "f" none =
      .error (.typeError
        (pySquote ++ "NoneType" ++ pySquote ++ " object is not iterable")) := by rfl

/-- The record loop returns (rather than raising) whenever no record in the
batch parses to an uncaught `TypeError`. -/
theorem scanRecords_total (limit : Nat) (batch : List (List (String × Json))) :
    ∀ acc, (∀ kvs ∈ batch, parseNonFatal kvs = true) →
      (EmailScanner.scanRecords limit acc batch).isOk = true := by
  induction batch with
  | nil => intro acc _; rfl
  | cons record rest ih =>
    intro acc h
    have hnf : parseNonFatal record = true := h record (by simp)
    unfold EmailScanner.scanRecords
    unfold parseNonFatal at hnf
    cases hr : Email.from_graph_api record with
    | ok email =>
      simp only []
      split
      · rfl
      · exact ih _ (fun kvs hk => h kvs (by simp [hk]))
    | error err =>
      rw [hr] at hnf
      cases err with
      | keyError k =>
        simp only []
        split
        · rfl
        · exact ih _ (fun kvs hk => h kvs (by simp [hk]))
      | valueError m =>
        simp only []
        split
        · rfl
        · exact ih _ (fun kvs hk => h kvs (by simp [hk]))
      | typeError m =>
        simp at hnf

/-- The page loop returns whenever no record in any page parses to an
uncaught `TypeError` — transport failures never make it raise, because the
fetch stage already converted them into a truncated page list. -/
theorem scanPages_total (limit : Nat) (pages : List FetchPage) :
    ∀ acc, (∀ page ∈ pages, ∀ kvs ∈ page.1, parseNonFatal kvs = true) →
      (EmailScanner.scanPages limit acc pages).isOk = true := by
  induction pages with
  | nil => intro acc _; rfl
  | cons page rest ih =>
    obtain ⟨batch, batch_next_link⟩ := page
    intro acc h
    have ht := scanRecords_total limit batch acc (h (batch, batch_next_link) (by simp))
    unfold EmailScanner.scanPages
    cases hr : EmailScanner.scanRecords limit acc batch with
    | error e =>
      rw [hr] at ht
      simp [Except.isOk, Except.toBool] at ht
    | ok acc1 =>
      simp only []
      split
      · rfl
      · exact ih _ (fun p hp => h p (by simp [hp]))

/-- C4 as amended: a page-request failure never propagates out of a scan —
the paginator stops and the scan returns the records accumulated before
the failure — and a record whose parse raises `KeyError` (or `ValueError`)
is skipped with exactly one diagnostic appended per skip, the scan
continuing; but a record whose parse raises `TypeError` (e.g. a
non-iterable `categories` value) escapes the scanner's
`except (KeyError, ValueError)` clause and aborts the scan. -/
theorem scan_partial_results (responses : List ReqResult) (limit : Nat)
    (folder_id : String) (folder_name : Option String)
    (h : ∀ page ∈ (EmailScanner.fetch_email_pages responses limit).pages,
      ∀ kvs ∈ page.1, parseNonFatal kvs = true) :
    ∃ r, EmailScanner.scan_folder responses limit folder_id folder_name = .ok r ∧
      r.skipped_count = r.errors.length := by
  have ht := scanPages_total limit (EmailScanner.fetch_email_pages responses limit).pages
    ⟨[], [], 0, 0, .null⟩ h
  cases hp : EmailScanner.scanPages limit ⟨[], [], 0, 0, .null⟩
      (EmailScanner.fetch_email_pages responses limit).pages with
  | error e =>
    rw [hp] at ht
    simp [Except.isOk, Except.toBool] at ht
  | ok acc =>
    obtain ⟨_, i2⟩ := scanPages_invariant limit _ _ _ hp
    refine ⟨EmailScanner.mkScanResult limit acc (some folder_id) folder_name, ?_, ?_⟩
    · unfold EmailScanner.scan_folder
      rw [hp]
    · simpa [EmailScanner.mkScanResult] using (i2 rfl).symm

/-- Witness for C4: a scan whose second page request fails (and whose
first page contains one bad record raising `KeyError`) still returns a
result instead of raising. -/
theorem scan_partial_results_witness :
    (EmailScanner.scan_folder
      [samplePage [sampleRecord "1", .obj [("subject", .str "bad")]] (some "L"), .err]
      10 "f" none).isOk = true := by
  obtain ⟨r, hr, _⟩ := scan_partial_results
    [samplePage [sampleRecord "1", .obj [("subject", .str "bad")]] (some "L"), .err]
    10 "f" none (by decide)
  rw [hr]
  rfl

/-- When the bound is already met, the pagination loop exits immediately. -/
theorem fetchLoop_bound (responses : List ReqResult) (t m : Nat) (h : m ≤ t) :
    EmailScanner.fetchLoop responses t m = ⟨[], .boundReached⟩ := by
  unfold EmailScanner.fetchLoop
  rw [if_pos h]

/-- When every record of the batch parses or fails with a caught
`KeyError`/`ValueError`, and the batch holds enough parseable records, the
record loop stops exactly at the bound: `limit` records accumulated, the
stored cursor untouched — unparseable records interspersed before the
bound are skipped and do not disturb the count. -/
theorem scanRecords_reaches_limit (limit : Nat) (batch : List (List (String × Json))) :
    ∀ acc, (∀ kvs ∈ batch, parseNonFatal kvs = true) →
      acc.emails.length < limit →
      limit ≤ acc.emails.length +
        batch.countP (fun kvs => (Email.from_graph_api kvs).isOk) →
      ∃ acc', EmailScanner.scanRecords limit acc batch = .ok acc' ∧
        acc'.emails.length = limit ∧
        acc'.next_link = acc.next_link := by
  induction batch with
  | nil =>
    intro acc _ hlt hle
    simp [List.countP_nil] at hle
    omega
  | cons record rest ih =>
    intro acc h hlt hle
    have hnf : parseNonFatal record = true := h record (by simp)
    unfold parseNonFatal at hnf
    unfold EmailScanner.scanRecords
    cases hr : Email.from_graph_api record with
    | ok email =>
      simp only []
      by_cases hstop : limit ≤ (acc.emails ++ [email]).length
      · rw [if_pos hstop]
        refine ⟨_, rfl, ?_, rfl⟩
        simp only [List.length_append, List.length_singleton]
        simp at hstop
        omega
      · rw [if_neg hstop]
        have hc : (record :: rest).countP
            (fun kvs => (Email.from_graph_api kvs).isOk) =
            rest.countP (fun kvs => (Email.from_graph_api kvs).isOk) + 1 := by
          rw [List.countP_cons, hr]
          rfl
        rw [hc] at hle
        have hres := ih { acc with
            emails := acc.emails ++ [email],
            scanned_count := acc.scanned_count + 1 }
          (fun kvs hk => h kvs (by simp [hk]))
          (by simp at hstop ⊢; omega)
          (by
            show limit ≤ (acc.emails ++ [email]).length +
              rest.countP (fun kvs => (Email.from_graph_api kvs).isOk)
            rw [List.length_append, List.length_singleton]
            omega)
        simpa using hres
    | error err =>
      rw [hr] at hnf
      have hle' : limit ≤ acc.emails.length +
          rest.countP (fun kvs => (Email.from_graph_api kvs).isOk) := by
        have hc : (record :: rest).countP
            (fun kvs => (Email.from_graph_api kvs).isOk) =
            rest.countP (fun kvs => (Email.from_graph_api kvs).isOk) := by
          rw [List.countP_cons, hr]
          rfl
        rw [hc] at hle
        exact hle
      cases err with
      | keyError k =>
        simp only []
        rw [if_neg (by simpa using Nat.not_le.mpr hlt)]
        have hres := ih { acc with
            errors := acc.errors ++
              ["Failed to parse email: " ++ PyErr.message (.keyError k)],
            scanned_count := acc.scanned_count + 1,
            skipped_count := acc.skipped_count + 1 }
          (fun kvs hk => h kvs (by simp [hk]))
          (by simpa using hlt)
          (by simpa using hle')
        simpa using hres
      | valueError m =>
        simp only []
        rw [if_neg (by simpa using Nat.not_le.mpr hlt)]
        have hres := ih { acc with
            errors := acc.errors ++
              ["Failed to parse email: " ++ PyErr.message (.valueError m)],
            scanned_count := acc.scanned_count + 1,
            skipped_count := acc.skipped_count + 1 }
          (fun kvs hk => h kvs (by simp [hk]))
          (by simpa using hlt)
          (by simpa using hle')
        simpa using hres
      | typeError m =>
        simp at hnf

/-- C3 counterexample: a scan bounded to 1 record against a first page
holding 2 parseable records but no continuation cursor returns exactly 1
record yet `has_more == false`, where the claim asserts `has_more == true`
for every such scan. -/
theorem scan_bound_midpage_cex :
    (EmailScanner.scan_folder
      [samplePage [sampleRecord "1", sampleRecord "2"] none] 1 "f" none).toOption.map
      (fun r => (r.total_count, r.has_more)) = some (1, false) := by rfl

/-- C3 as amended: a scan bounded to `N > 0` records against a first page
containing more than `N` parseable records — records failing with the
caught `KeyError`/`ValueError` may be interspersed among them — stops
mid-page with exactly `N` successfully parsed records; the page's cursor
value is retained in the result and `has_more` equals exactly "that cursor
is not `None`": true when the page carries a cursor, false when it carries
none. -/
theorem scan_bound_midpage (records : List Json) (link : Json)
    (rest : List ReqResult) (limit : Nat) (fid : String) (fname : Option String)
    (hlim : 0 < limit)
    (hok : ∀ kvs ∈ dictRecords records, parseNonFatal kvs = true)
    (hlen : limit < (dictRecords records).countP
      (fun kvs => (Email.from_graph_api kvs).isOk)) :
    ∃ r, EmailScanner.scan_folder
        (.ok (.json (.obj [("value", .arr records), ("@odata.nextLink", link)])) :: rest)
        limit fid fname = .ok r ∧
      r.total_count = limit ∧ r.next_link = link ∧
      r.has_more = link.isNotNone := by
  have hcle : (dictRecords records).countP
      (fun kvs => (Email.from_graph_api kvs).isOk) ≤ (dictRecords records).length :=
    List.countP_le_length _
  obtain ⟨x, xs, hrec⟩ : ∃ x xs, records = x :: xs := by
    cases records with
    | nil => simp [dictRecords, List.countP_nil] at hlen
    | cons x xs => exact ⟨x, xs, rfl⟩
  subst hrec
  have hpages : (EmailScanner.fetch_email_pages
      (.ok (.json (.obj [("value", .arr (x :: xs)), ("@odata.nextLink", link)])) :: rest)
      limit).pages = [(dictRecords (x :: xs), link)] := by
    unfold EmailScanner.fetch_email_pages EmailScanner.fetchLoop
    rw [if_neg (by omega)]
    simp only []
    rw [show pyGetD [("value", Json.arr (x :: xs)), ("@odata.nextLink", link)]
      "value" (.arr []) = .arr (x :: xs) from rfl]
    simp only []
    rw [show pyGet [("value", Json.arr (x :: xs)), ("@odata.nextLink", link)]
      "@odata.nextLink" = link from rfl]
    by_cases hl : pyTruthy link = true
    · rw [if_pos hl]
      rw [fetchLoop_bound rest _ limit (by omega)]
    · rw [if_neg hl]
  unfold EmailScanner.scan_folder
  rw [hpages]
  obtain ⟨acc', hacc, hlen', _⟩ :=
    scanRecords_reaches_limit limit (dictRecords (x :: xs)) ⟨[], [], 0, 0, .null⟩
      hok (by simpa using hlim) (by simpa using Nat.le_of_lt hlen)
  unfold EmailScanner.scanPages
  rw [hacc]
  simp only []
  rw [if_pos (by simpa using hlen'.ge)]
  refine ⟨_, rfl, ?_, rfl, ?_⟩
  · simpa [EmailScanner.mkScanResult] using hlen'
  · simp [EmailScanner.mkScanResult, hlen']

/-- Witness for C3 (amended): bound 1 against a first page holding an
unparseable record (missing `id`, a caught `KeyError`) interspersed before
2 parseable records, with cursor `"L"`: exactly 1 record is returned,
`has_more = true` and the cursor is retained. -/
theorem scan_bound_midpage_witness :
    (EmailScanner.scan_folder
      [.ok (.json (.obj [("value", .arr [.obj [("subject", .str "x")],
        sampleRecord "1", sampleRecord "2"]), ("@odata.nextLink", .str "L")]))]
      1 "f" none).toOption.map
      (fun r => (r.total_count, r.has_more, r.next_link)) =
      some (1, true, .str "L") := by
  obtain ⟨r, hr, h1, h2, h3⟩ :=
    scan_bound_midpage [.obj [("subject", .str "x")], sampleRecord "1", sampleRecord "2"]
      (.str "L") [] 1 "f" none (by omega) (by decide) (by decide)
  rw [hr]
  simp only [Except.toOption, Option.map_some']
  rw [h1, h2, h3]
  rfl

/-- Witness for C9 (amended): a server always answering one dict record
with a truthy cursor satisfies the progress condition, and the bound-1 run
exits within the `max_emails + 1` fuel budget. -/
theorem fetch_pages_progress_terminate_witness :
    (EmailScanner.fetchLoopFuel
      (fun _ => samplePage [sampleRecord "1"] (some "L")) 0 0 1 2).isExited = true := by
  refine (fetch_pages_progress_terminate
    (fun _ => samplePage [sampleRecord "1"] (some "L")) 1 ?_).1
  intro j kvs x xs h1 h2
  simp only [samplePage] at h1
  cases h1
  rw [show pyGetD [("value", Json.arr [sampleRecord "1"]), ("@odata.nextLink", Json.str "L")]
    "value" (.arr []) = .arr [sampleRecord "1"] from rfl] at h2
  cases h2
  simp [dictRecords, sampleRecord]
